import Mathlib

/-
  Shallow embedding of outcomes-import.go, a command-line client for the
  "outcomes import" REST API.  Pure logic (domain normalization, config
  merging, dispatch) is translated to Lean functions directly.  Effectful
  code is modelled with explicit state: the config file's current content
  is a parameter `prior : Option Config` (none = file absent, mirroring
  configFromFile returning nil), the remote server's responses are a
  `Server` record (all claims quantify over successfully decoded
  responses, so the server is modelled as returning well-typed values),
  and success of the OS-level file write is a Boolean `writeOk`.
  Each API operation returns a `RunResult` recording the HTTP calls made
  in order, the stdout chunks printed (one string per fmt.Print call),
  the Config value handed to the configuration store, how the process
  run ends, and the file content afterwards.
-/

namespace OutcomesImport

/-- Config mirrors the Go struct `config` (fields Apikey, MigrationId,
Domain; source lines 16-20).  Go `int` is modelled as `Int`. -/
structure Config where
  apikey : String
  migrationId : Int
  domain : String
deriving DecidableEq, Repr

/-- Request mirrors the Go struct `request` (source lines 22-28). -/
structure Request where
  body : String
  apikey : String
  domain : String
  method : String
  endpoint : String
deriving DecidableEq, Repr

/-- ImportableGuid mirrors the Go struct `importableGuid` (lines 30-33). -/
structure ImportableGuid where
  title : String
  guid : String
deriving DecidableEq, Repr

/-- MigrationIssue mirrors the Go struct `migrationIssue` (lines 35-41). -/
structure MigrationIssue where
  id : Int
  issueType : String
  description : String
  errorReportUrl : String
  errorMessage : String
deriving DecidableEq, Repr

/-- MigrationStatus mirrors the Go struct `migrationStatus` (lines 43-48). -/
structure MigrationStatus where
  id : Int
  workflowState : String
  migrationIssuesCount : Int
  migrationIssues : List MigrationIssue
deriving DecidableEq, Repr

/-- NewImport mirrors the Go struct `newImport` (lines 50-53). -/
structure NewImport where
  migrationId : Int
  guid : String
deriving DecidableEq, Repr

/-- Termination describes how a run of an operation ends.  `exit0` means
the code path returns normally (the process then exits with status 0);
`panicked` models a Go runtime panic (nil-pointer dereference), a
non-zero abnormal exit; `fatal` models log.Fatalln (message printed,
exit status 1). -/
inductive Termination where
  | exit0
  | panicked
  | fatal (msg : String)
deriving DecidableEq, Repr

/-- Helper: does the first list lead the second (Go's bytes-level
HasPrefix, at character level)? -/
def listLeads : List Char → List Char → Bool
  | [], _ => true
  | _ :: _, [] => false
  | a :: as, b :: bs => a == b && listLeads as bs

/-- Go's strings.HasPrefix at character level (the program only feeds
it ASCII literals, where bytes and characters coincide). -/
def strStartsWith (s p : String) : Bool :=
  listLeads p.data s.data

/-- Go's strings.HasSuffix at character level. -/
def strEndsWith (s p : String) : Bool :=
  listLeads p.data.reverse s.data.reverse

/-- Go's strings.TrimSuffix: remove one occurrence of the trailing
suffix, when present. -/
def trimSuffix (s suff : String) : String :=
  if strEndsWith s suff then ⟨s.data.take (s.data.length - suff.data.length)⟩ else s

/-- Translation of normalizeDomain (source lines 126-138): "localhost"
maps to the local dev URL; otherwise an input without the scheme-like
"http" start gets "https://" prepended and, when the result ends in
neither "com" nor "/", ".instructure.com" appended; finally one
trailing "/" is trimmed. -/
def normalizeDomain (domain : String) : String :=
  if domain = "localhost" then "http://localhost:3000"
  else
    let retval :=
      if strStartsWith domain "http" then domain
      else
        let r := "https://" ++ domain
        if !(strEndsWith r "com") && !(strEndsWith r "/") then r ++ ".instructure.com" else r
    trimSuffix retval "/"

/-- Translation of writeToFile (source lines 67-78).  The receiver `c`
is the config being saved, `prior` is what configFromFile() returns
(none when the file is absent), and `writeOk` tells whether the OS
write succeeds.  Faithful points: when prior is none, the Go code
dereferences a nil pointer at `current.Apikey` and panics before
writing anything; json.MarshalIndent cannot fail on this struct, so its
error branch is unreachable; and the error returned by
ioutil.WriteFile is discarded (line 77), so the function returns
normally whether or not the write succeeded.  Returns how the run ends
together with the file content afterwards. -/
def writeToFile (c : Config) (prior : Option Config) (writeOk : Bool) :
    Termination × Option Config :=
  match prior with
  | none => (Termination.panicked, none)
  | some cur =>
    let stored := if cur.apikey = "" then { c with apikey := "" } else c
    (Termination.exit0, if writeOk then some stored else some cur)

/-- HttpCall is one HTTP request issued by the program: method, endpoint
path and body, as assembled by httpRequest (lines 155-167) from the
fields each operation sets. -/
structure HttpCall where
  method : String
  endpoint : String
  body : String
deriving DecidableEq, Repr

/-- Server models the remote API for one invocation: what it answers on
each of the three endpoints.  Claims quantify over successfully decoded
responses, so responses are already well-typed values. -/
structure Server where
  available : List ImportableGuid
  importResponse : NewImport
  statusResponse : MigrationStatus
deriving Repr

/-- RunResult records the observable behaviour of one API operation:
HTTP calls in order, stdout chunks (one per fmt.Print call), the Config
value handed to the configuration store (none when the program dies
before constructing it), the termination, and the config file content
after the run. -/
structure RunResult where
  calls : List HttpCall
  output : List String
  submitted : Option Config
  termination : Termination
  fileAfter : Option Config
deriving Repr

/-- The GET issued by getAvailable (lines 179-196). -/
def availableCall : HttpCall :=
  ⟨"GET", "/api/v1/global/outcomes_import/available", ""⟩

/-- Translation of printImportableGuids (lines 262-267): a header chunk
then one "<guid> - <title>" line per entry, in order. -/
def printImportableGuids (guids : List ImportableGuid) : List String :=
  "GUIDs available to import:\n\n" ::
    guids.map (fun g => g.guid ++ " - " ++ g.title ++ "\n")

/-- Translation of printMigrationStatus (lines 269-285): id equal to 0
renders the informational error message; otherwise the header lines
followed by five detail lines per migration issue, in order. -/
def printMigrationStatus (m : MigrationStatus) : List String :=
  if m.id = 0 then
    ["\nThe server returned an error.  Are you sure that migration ID exists?\n"]
  else
    ["\nMigration status for migration \x27" ++ toString m.id ++ "\x27:\n",
     " - Workflow state: " ++ m.workflowState ++ "\n",
     " - Migration issues count: " ++ toString m.migrationIssuesCount ++ "\n",
     " - Migration issues:\n"] ++
    m.migrationIssues.flatMap (fun v =>
      ["   - ID: " ++ toString v.id ++ "\n",
       "   - Link: " ++ v.errorReportUrl ++ "\n",
       "   - Issue type: " ++ v.issueType ++ "\n",
       "   - Error message: " ++ v.errorMessage ++ "\n",
       "   - Description: " ++ v.description ++ "\n"])

/-- Translation of printImportResults (lines 287-292). -/
def printImportResults (n : NewImport) : List String :=
  ["\nMigration ID is " ++ toString n.migrationId ++ "\n"]

/-- Title resolution loop of importGuid (lines 230-235): the first entry
whose title equals the supplied value replaces it by its guid; with no
match the supplied value is kept. -/
def resolveGuid (guids : List ImportableGuid) (guid : String) : String :=
  match guids.find? (fun v => v.title == guid) with
  | some v => v.guid
  | none => guid

/-- Translation of printAvailable (lines 169-177): fetch the available
list, print it, then persist {request api key, request domain,
migration id re-read from the existing file}.  When no prior file
exists, `configFromFile().MigrationId` dereferences a nil pointer and
the program panics before any Config value is constructed. -/
def printAvailable (req : Request) (prior : Option Config) (writeOk : Bool)
    (server : Server) : RunResult :=
  let calls := [availableCall]
  let output := printImportableGuids server.available
  match prior with
  | none => ⟨calls, output, none, Termination.panicked, none⟩
  | some cur =>
    let towrite : Config := ⟨req.apikey, cur.migrationId, req.domain⟩
    let res := writeToFile towrite prior writeOk
    ⟨calls, output, some towrite, res.1, res.2⟩

/-- Translation of getStatus (lines 198-225): one GET to the
migration_status endpoint, render the decoded status, then persist
{request api key, request domain, the queried migration id}. -/
def getStatus (req : Request) (migrationId : Int) (prior : Option Config)
    (writeOk : Bool) (server : Server) : RunResult :=
  let calls := [⟨"GET",
    "/api/v1/global/outcomes_import/migration_status/" ++ toString migrationId, ""⟩]
  let output := printMigrationStatus server.statusResponse
  let towrite : Config := ⟨req.apikey, migrationId, req.domain⟩
  let res := writeToFile towrite prior writeOk
  ⟨calls, output, some towrite, res.1, res.2⟩

/-- Translation of importGuid (lines 227-260): first fetch the
available list (always, even for a raw GUID), resolve a title match,
then POST "guid=<resolved>", render the decoded NewImport, and persist
{request api key, request domain, the returned migration id}. -/
def importGuid (req : Request) (guid : String) (prior : Option Config)
    (writeOk : Bool) (server : Server) : RunResult :=
  let resolved := resolveGuid server.available guid
  let calls := [availableCall,
    ⟨"POST", "/api/v1/global/outcomes_import/", "guid=" ++ resolved⟩]
  let output := printImportResults server.importResponse
  let towrite : Config := ⟨req.apikey, server.importResponse.migrationId, req.domain⟩
  let res := writeToFile towrite prior writeOk
  ⟨calls, output, some towrite, res.1, res.2⟩

/-- Config merge in main (lines 96-109): each flag keeps its value when
non-zero; a zero-value flag takes the stored value when a config file
is present; with no file the flag values pass through unchanged.
Returns (api key, migration id, domain). -/
def mergeConfig (apikeyFlag : String) (statusFlag : Int) (domainFlag : String)
    (cf : Option Config) : String × Int × String :=
  match cf with
  | none => (apikeyFlag, statusFlag, domainFlag)
  | some c =>
    (if apikeyFlag = "" then c.apikey else apikeyFlag,
     if statusFlag = 0 then c.migrationId else statusFlag,
     if domainFlag = "" then c.domain else domainFlag)

/-- Action is which operation an invocation performs. -/
inductive Action where
  | listAvailable
  | doImport (guid : String)
  | queryStatus (migrationId : Int)
  | noAction
deriving DecidableEq, Repr

/-- Dispatch chain of main (lines 115-124): -available first, then a
non-empty -guid, then a non-zero merged migration id, else no action. -/
def dispatch (available : Bool) (guid : String) (status : Int) : Action :=
  if available then Action.listAvailable
  else if guid ≠ "" then Action.doImport guid
  else if status ≠ 0 then Action.queryStatus status
  else Action.noAction

/-- FatalExit describes a fatal termination path: whether flag.Usage()
ran before the message, the message, and that the exit status is
non-zero. -/
structure FatalExit where
  usagePrinted : Bool
  message : String
  exitNonZero : Bool
deriving DecidableEq, Repr

/-- Translation of errAndExit (lines 140-144): prints the usage text,
then log.Fatalln exits with status 1. -/
def errAndExit (message : String) : FatalExit :=
  ⟨true, message, true⟩

/-- The no-action branch of main (line 122) calls log.Fatalln directly,
not errAndExit: the message is printed and the process exits with
status 1, but no usage text is printed. -/
def noActionExit : FatalExit :=
  ⟨false, "No recent migration ID, and none specified to query status on", true⟩

/-- Concrete request for witnesses: api key and domain supplied. -/
def req0 : Request :=
  ⟨"", "test-api-key", "https://utah.instructure.com", "", ""⟩

/-- Concrete stored configuration for witnesses, with a non-empty
stored api key. -/
def cfg0 : Config :=
  ⟨"stored-key", 7, "https://utah.instructure.com"⟩

/-- Concrete server for witnesses: two available GUIDs, an import
response, and a status response with id 0 (the "not found" signal). -/
def server0 : Server :=
  ⟨[⟨"Math", "g1"⟩, ⟨"Science", "g2"⟩], ⟨99, "g1"⟩, ⟨0, "", 0, []⟩⟩

/-- Concrete server for witnesses whose status response has a non-zero
id and one migration issue. -/
def server1 : Server :=
  ⟨[], ⟨0, ""⟩,
   ⟨42, "completed", 1, [⟨5, "warning", "a description", "http://x", "a message"⟩]⟩⟩

end OutcomesImport

namespace OutcomesImport

/-- C1: the claim says that saving the configuration when no prior
config file exists always persists a file whose api key field is empty.
The code instead panics there: configFromFile() returns nil and
writeToFile dereferences `current.Apikey` (line 70) without a nil
check, so nothing is persisted.  The code's own comment (line 69, "we
only want to store the API key if the user already stores it") and the
graceful nil handling in main show the claim is the intent and the
missing nil check a slip.  This theorem evaluates the model at the
failing input. -/
theorem c1_save_without_prior_file_panics :
    writeToFile ⟨"secret-key", 7, "https://utah.instructure.com"⟩ none true
      = (Termination.panicked, none) := rfl

/-- C2: the claim says a failing file write terminates the program
fatally and is never silently ignored.  The code discards the error
returned by ioutil.WriteFile (line 77); the only fatal branch in
writeToFile guards json.MarshalIndent, even though its message reads
"Error writing to ...".  This theorem evaluates the model at a failing
write: the run ends normally (exit status 0) with the file unchanged,
no fatal error. -/
theorem c2_write_failure_not_fatal :
    writeToFile ⟨"new-key", 3, "https://utah.instructure.com"⟩
        (some ⟨"stored-key", 1, "https://old.instructure.com"⟩) false
      = (Termination.exit0, some ⟨"stored-key", 1, "https://old.instructure.com"⟩) := rfl

/-- C3: domain normalization is a pure function with
normalizeDomain "localhost" = "http://localhost:3000",
normalizeDomain "utah" = "https://utah.instructure.com",
normalizeDomain "https://foo.com/" = "https://foo.com",
normalizeDomain "custom.edu" = "https://custom.edu.instructure.com",
and in general, for every input other than "localhost" that does not
start with "http", "https://" is prepended, ".instructure.com" is
appended when the result ends in neither "com" nor "/", and one
trailing "/" is then stripped. -/
theorem c3_normalizeDomain_spec :
    normalizeDomain "localhost" = "http://localhost:3000" ∧
    normalizeDomain "utah" = "https://utah.instructure.com" ∧
    normalizeDomain "https://foo.com/" = "https://foo.com" ∧
    normalizeDomain "custom.edu" = "https://custom.edu.instructure.com" ∧
    ∀ s : String, s ≠ "localhost" → ¬ strStartsWith s "http" →
      normalizeDomain s =
        trimSuffix
          (if !(strEndsWith ("https://" ++ s) "com") && !(strEndsWith ("https://" ++ s) "/")
           then ("https://" ++ s) ++ ".instructure.com"
           else "https://" ++ s) "/" := by
  refine ⟨by decide, by decide, by decide, by decide, ?_⟩
  intro s h1 h2
  simp only [Bool.not_eq_true] at h2
  simp only [normalizeDomain, if_neg h1, h2, Bool.false_eq_true, if_false]

/-- C3 witness: the general rule applied at the concrete input
"myschool". -/
theorem c3_witness :
    normalizeDomain "myschool" = "https://myschool.instructure.com" :=
  ((c3_normalizeDomain_spec).2.2.2.2 "myschool" (by decide) (by decide)).trans (by decide)

/-- C4: every import invocation fetches the available list first (the
first HTTP call is the available GET, even when the supplied value is a
raw GUID), and the POST body is "guid=" followed by the supplied value
with an exact title match replaced by that entry's guid, or unchanged
when no title matches. -/
theorem c4_import_fetches_available_first :
    ∀ (req : Request) (guid : String) (prior : Option Config) (writeOk : Bool)
      (server : Server),
      (importGuid req guid prior writeOk server).calls =
        [availableCall,
         ⟨"POST", "/api/v1/global/outcomes_import/",
          "guid=" ++ resolveGuid server.available guid⟩] ∧
      ((∃ v ∈ server.available, v.title = guid) →
        ∃ v ∈ server.available, v.title = guid ∧
          resolveGuid server.available guid = v.guid) ∧
      ((∀ v ∈ server.available, v.title ≠ guid) →
        resolveGuid server.available guid = guid) := by
  intro req guid prior writeOk server
  refine ⟨rfl, ?_, ?_⟩
  · rintro ⟨v, hv, ht⟩
    unfold resolveGuid
    cases h : server.available.find? (fun w => w.title == guid) with
    | none =>
      exact absurd (by simpa using ht) (by simpa using List.find?_eq_none.mp h v hv)
    | some w =>
      exact ⟨w, List.mem_of_find?_eq_some h, by simpa using List.find?_some h, rfl⟩
  · intro hall
    unfold resolveGuid
    cases h : server.available.find? (fun w => w.title == guid) with
    | none => rfl
    | some w =>
      exact absurd (by simpa using List.find?_some h)
        (hall w (List.mem_of_find?_eq_some h))

/-- C4 witness: the spec scenario where a supplied title "Math"
resolves to the guid "g1" of the matching available entry. -/
theorem c4_witness :
    (∃ v ∈ server0.available, v.title = "Math") ∧
    (∃ v ∈ server0.available, v.title = "Math" ∧
      resolveGuid server0.available "Math" = v.guid) :=
  ⟨by decide,
   (c4_import_fetches_available_first req0 "Math" (some cfg0) true server0).2.1
     (by decide)⟩

/-- C5: a status query against a present config file, with a successful
write, always ends normally (exit status 0) and persists the queried
migration id with the request's domain; a decoded response with id 0
renders only the informational "server returned an error" message (not
fatal), and a response with non-zero id renders the workflow state, the
issue count, and the five detail lines of every migration issue in the
order received. -/
theorem c5_status_spec :
    ∀ (req : Request) (mid : Int) (cur : Config) (server : Server),
      (getStatus req mid (some cur) true server).termination = Termination.exit0 ∧
      (∃ c, (getStatus req mid (some cur) true server).fileAfter = some c ∧
        c.migrationId = mid ∧ c.domain = req.domain) ∧
      (server.statusResponse.id = 0 →
        (getStatus req mid (some cur) true server).output =
          ["\nThe server returned an error.  Are you sure that migration ID exists?\n"]) ∧
      (server.statusResponse.id ≠ 0 →
        (getStatus req mid (some cur) true server).output =
          ["\nMigration status for migration \x27" ++ toString server.statusResponse.id
              ++ "\x27:\n",
           " - Workflow state: " ++ server.statusResponse.workflowState ++ "\n",
           " - Migration issues count: "
              ++ toString server.statusResponse.migrationIssuesCount ++ "\n",
           " - Migration issues:\n"] ++
          server.statusResponse.migrationIssues.flatMap (fun v =>
            ["   - ID: " ++ toString v.id ++ "\n",
             "   - Link: " ++ v.errorReportUrl ++ "\n",
             "   - Issue type: " ++ v.issueType ++ "\n",
             "   - Error message: " ++ v.errorMessage ++ "\n",
             "   - Description: " ++ v.description ++ "\n"])) := by
  intro req mid cur server
  refine ⟨rfl, ?_, ?_, ?_⟩
  · rcases eq_or_ne cur.apikey "" with h | h
    · exact ⟨⟨"", mid, req.domain⟩, by simp [getStatus, writeToFile, h], rfl, rfl⟩
    · exact ⟨⟨req.apikey, mid, req.domain⟩, by simp [getStatus, writeToFile, h], rfl, rfl⟩
  · intro h
    simp [getStatus, printMigrationStatus, h]
  · intro h
    simp [getStatus, printMigrationStatus, h]

/-- C5 witness: the spec scenario -status 42 against a server answering
id 0 prints the informational message and ends normally; against a
server answering id 42 with one issue, the full detail is rendered. -/
theorem c5_witness :
    server0.statusResponse.id = 0 ∧
    (getStatus req0 42 (some cfg0) true server0).output =
      ["\nThe server returned an error.  Are you sure that migration ID exists?\n"] ∧
    (getStatus req0 42 (some cfg0) true server0).termination = Termination.exit0 ∧
    server1.statusResponse.id ≠ 0 ∧
    (getStatus req0 42 (some cfg0) true server1).output =
      ["\nMigration status for migration \x2742\x27:\n",
       " - Workflow state: completed\n",
       " - Migration issues count: 1\n",
       " - Migration issues:\n",
       "   - ID: 5\n",
       "   - Link: http://x\n",
       "   - Issue type: warning\n",
       "   - Error message: a message\n",
       "   - Description: a description\n"] :=
  ⟨rfl,
   (c5_status_spec req0 42 cfg0 server0).2.2.1 rfl,
   (c5_status_spec req0 42 cfg0 server0).1,
   by decide,
   ((c5_status_spec req0 42 cfg0 server1).2.2.2 (by decide)).trans (by decide)⟩

/-- C6: merge precedence per field (api key, migration id, domain): a
non-zero-value flag always wins; a zero-value flag with a present
config file takes the stored value; flag zero with no config file
leaves the field empty respectively zero. -/
theorem c6_merge_precedence :
    ∀ (fa : String) (fs : Int) (fd : String) (cf : Option Config),
      ((fa ≠ "" → (mergeConfig fa fs fd cf).1 = fa) ∧
       (fs ≠ 0 → (mergeConfig fa fs fd cf).2.1 = fs) ∧
       (fd ≠ "" → (mergeConfig fa fs fd cf).2.2 = fd)) ∧
      (∀ c, cf = some c →
        (fa = "" → (mergeConfig fa fs fd cf).1 = c.apikey) ∧
        (fs = 0 → (mergeConfig fa fs fd cf).2.1 = c.migrationId) ∧
        (fd = "" → (mergeConfig fa fs fd cf).2.2 = c.domain)) ∧
      (cf = none →
        (fa = "" → (mergeConfig fa fs fd cf).1 = "") ∧
        (fs = 0 → (mergeConfig fa fs fd cf).2.1 = 0) ∧
        (fd = "" → (mergeConfig fa fs fd cf).2.2 = "")) := by
  intro fa fs fd cf
  cases cf with
  | none =>
    refine ⟨⟨fun _ => rfl, fun _ => rfl, fun _ => rfl⟩, ?_, ?_⟩
    · intro c hc; cases hc
    · intro _
      exact ⟨fun h => h, fun h => h, fun h => h⟩
  | some c =>
    refine ⟨⟨?_, ?_, ?_⟩, ?_, ?_⟩
    · intro h; simp [mergeConfig, h]
    · intro h; simp [mergeConfig, h]
    · intro h; simp [mergeConfig, h]
    · intro d hd
      cases hd
      exact ⟨fun h => by simp [mergeConfig, h],
             fun h => by simp [mergeConfig, h],
             fun h => by simp [mergeConfig, h]⟩
    · intro hn; cases hn

/-- C6 witness: concrete merges covering a winning flag, a stored value
taken over a zero flag, and both absent. -/
theorem c6_witness :
    (mergeConfig "k" 5 "d" (some cfg0)).1 = "k" ∧
    (mergeConfig "" 0 "" (some cfg0)).1 = cfg0.apikey ∧
    (mergeConfig "" 0 "" none).2.1 = 0 :=
  ⟨(c6_merge_precedence "k" 5 "d" (some cfg0)).1.1 (by decide),
   ((c6_merge_precedence "" 0 "" (some cfg0)).2.1 cfg0 rfl).1 rfl,
   ((c6_merge_precedence "" 0 "" none).2.2 rfl).2.1 rfl⟩

/-- C7: every list-available invocation (with a present config file,
since writeToFile re-reads it) renders a header followed by one
"<guid> - <title>" line per entry in order, hands the configuration
store the value {request api key, request domain, migration id
unchanged from the stored config}, and — whenever the stored key was
non-empty and the write succeeds — that exact value is what lands in
the file. -/
theorem c7_available_spec :
    ∀ (req : Request) (cur : Config) (writeOk : Bool) (server : Server),
      (printAvailable req (some cur) writeOk server).output =
        "GUIDs available to import:\n\n" ::
          server.available.map (fun g => g.guid ++ " - " ++ g.title ++ "\n") ∧
      (printAvailable req (some cur) writeOk server).submitted =
        some ⟨req.apikey, cur.migrationId, req.domain⟩ ∧
      (cur.apikey ≠ "" → writeOk = true →
        (printAvailable req (some cur) writeOk server).fileAfter =
          some ⟨req.apikey, cur.migrationId, req.domain⟩) := by
  intro req cur writeOk server
  refine ⟨rfl, rfl, ?_⟩
  intro h hw
  simp [printAvailable, writeToFile, h, hw]

/-- C7 witness: the spec scenario where the server answers the two
GUIDs g1/Math and g2/Science and two lines are printed. -/
theorem c7_witness :
    cfg0.apikey ≠ "" ∧
    (printAvailable req0 (some cfg0) true server0).output =
      ["GUIDs available to import:\n\n", "g1 - Math\n", "g2 - Science\n"] ∧
    (printAvailable req0 (some cfg0) true server0).fileAfter =
      some ⟨"test-api-key", 7, "https://utah.instructure.com"⟩ :=
  ⟨by decide,
   ((c7_available_spec req0 cfg0 true server0).1).trans (by decide),
   (c7_available_spec req0 cfg0 true server0).2.2 (by decide) rfl⟩

/-- C8: every import invocation with a successfully decoded NewImport
(and a present config file, with the write succeeding) renders
"Migration ID is <id>" for the returned migration_id, hands the
configuration store a value whose migration id is the returned one,
and the returned migration id is the one in the persisted file. -/
theorem c8_import_result_spec :
    ∀ (req : Request) (guid : String) (cur : Config) (server : Server),
      (importGuid req guid (some cur) true server).output =
        ["\nMigration ID is " ++ toString server.importResponse.migrationId ++ "\n"] ∧
      (importGuid req guid (some cur) true server).submitted =
        some ⟨req.apikey, server.importResponse.migrationId, req.domain⟩ ∧
      ∃ c, (importGuid req guid (some cur) true server).fileAfter = some c ∧
        c.migrationId = server.importResponse.migrationId ∧ c.domain = req.domain := by
  intro req guid cur server
  refine ⟨rfl, rfl, ?_⟩
  rcases eq_or_ne cur.apikey "" with h | h
  · exact ⟨⟨"", server.importResponse.migrationId, req.domain⟩,
      by simp [importGuid, writeToFile, h], rfl, rfl⟩
  · exact ⟨⟨req.apikey, server.importResponse.migrationId, req.domain⟩,
      by simp [importGuid, writeToFile, h], rfl, rfl⟩

/-- C9 counterexample: the claim says the no-action path prints the
usage text before the fatal exit; the code's no-action branch (line
122) calls log.Fatalln directly without flag.Usage(), so with no
-available flag, no -guid and a merged migration id of 0, no usage
text is printed. -/
theorem c9_counterexample :
    dispatch false "" 0 = Action.noAction ∧ noActionExit.usagePrinted = false :=
  ⟨by decide, rfl⟩

/-- C9 amended: every invocation dispatches to at most one of the three
API operations; the no-action outcome arises exactly when -available is
unset, -guid is empty and the merged migration id is 0, and there the
process exits fatally with non-zero status and the message "No recent
migration ID, and none specified to query status on", without printing
the usage text and without performing any operation. -/
theorem c9_amended_dispatch :
    ∀ (a : Bool) (g : String) (s : Int),
      (dispatch a g s = Action.noAction ↔ a = false ∧ g = "" ∧ s = 0) ∧
      (dispatch a g s = Action.noAction →
        noActionExit.exitNonZero = true ∧ noActionExit.usagePrinted = false ∧
        noActionExit.message =
          "No recent migration ID, and none specified to query status on") := by
  intro a g s
  constructor
  · cases a with
    | true => simp [dispatch]
    | false =>
      rcases eq_or_ne g "" with hg | hg
      · rcases eq_or_ne s 0 with hs | hs
        · simp [dispatch, hg, hs]
        · simp [dispatch, hg, hs]
      · simp [dispatch, hg]
  · intro _
    exact ⟨rfl, rfl, rfl⟩

/-- C9 witness: the amended claim applied at the concrete no-action
invocation (no flags, empty merged state). -/
theorem c9_witness :
    noActionExit.exitNonZero = true ∧ noActionExit.usagePrinted = false ∧
    noActionExit.message =
      "No recent migration ID, and none specified to query status on" :=
  (c9_amended_dispatch false "" 0).2 (by decide)

/-- C10: dispatch priority: -available wins over everything, a
non-empty -guid wins over a non-zero merged migration id, and the
status query runs only when the first two are absent; exactly the
chosen action is returned, the others are ignored. -/
theorem c10_dispatch_priority :
    ∀ (g : String) (s : Int),
      dispatch true g s = Action.listAvailable ∧
      (g ≠ "" → dispatch false g s = Action.doImport g) ∧
      (g = "" → s ≠ 0 → dispatch false g s = Action.queryStatus s) := by
  intro g s
  refine ⟨rfl, ?_, ?_⟩
  · intro h; simp [dispatch, h]
  · intro h hs; simp [dispatch, h, hs]

/-- C10 witness: the priority rules applied at concrete invocations. -/
theorem c10_witness :
    dispatch false "abc" 5 = Action.doImport "abc" ∧
    dispatch false "" 5 = Action.queryStatus 5 :=
  ⟨(c10_dispatch_priority "abc" 5).2.1 (by decide),
   (c10_dispatch_priority "" 5).2.2 rfl (by decide)⟩

end OutcomesImport
